import Mathlib

/-!
Verification development for the taskflow planner backend.

The storage layer exists in two variants: `MemStorage` (JavaScript `Map`s with
integer id counters) and `MongoStorage` (Mongoose collections with string ids).
We embed both, together with the Express route handlers the claims mention,
and prove or refute each claim of the specification against the embedding.

Conventions of the embedding:
- JavaScript `Date` values are modelled as `Nat` millisecond timestamps;
  `setHours(0,0,0,0)` becomes truncation to a multiple of 86400000.
- A JavaScript `Map<number, T>` is modelled as an insertion-ordered
  association list `List (Nat × T)`: `get`/`set`/`delete` act on the key,
  `values()` is the list of second components.  The key is kept separate from
  the record's `id` field because `Map.set` does not re-key when an update
  rewrites the stored record's `id`.
- A Mongo collection is an insertion-ordered `List` of documents;
  `findById`/`findOne` return the first match, `findByIdAndUpdate` with
  `$set` merges into the first matching document in place, and
  `findByIdAndDelete` removes the first matching document.
- TypeScript `Partial<T>` patch objects become structures whose every field is
  wrapped in `Option` (`none` = field absent from the patch); the spread
  `{ ...t, ...patch }` becomes a field-wise `Option.getD`.
- `undefined`/`null` record fields are both modelled as `none`.
-/

namespace Taskflow

/-! ## JavaScript Map model (MemStorage backing maps) -/

def mapGet {α : Type} (m : List (Nat × α)) (k : Nat) : Option α :=
  (m.find? (fun e => e.1 == k)).map (·.2)

def mapSet {α : Type} : List (Nat × α) → Nat → α → List (Nat × α)
  | [], k, v => [(k, v)]
  | e :: es, k, v => if e.1 == k then (k, v) :: es else e :: mapSet es k v

def mapDelete {α : Type} : List (Nat × α) → Nat → Bool × List (Nat × α)
  | [], _ => (false, [])
  | e :: es, k =>
    if e.1 == k then (true, es)
    else
      let r := mapDelete es k
      (r.1, e :: r.2)

def mapValues {α : Type} (m : List (Nat × α)) : List α := m.map (·.2)

/-- Milliseconds per calendar day. -/
def dayMs : Nat := 86400000

/-- Model of `d.setHours(0, 0, 0, 0)`: truncate a millisecond timestamp to
midnight of its calendar day (the constant timezone offset is absorbed by
taking the epoch as local midnight). -/
def truncToDay (t : Nat) : Nat := t / dayMs * dayMs

/-! ## In-memory data model (shared/schema.ts row types, integer ids) -/

structure User where
  id : Nat
  username : String
  password : String
  email : String
  googleId : Option String
  fullName : Option String
  profilePicture : Option String
  createdAt : Nat
  deriving Repr, DecidableEq

/-- Validated body of `insertUserSchema` (username, password, email picked as
required; the profile fields optional). -/
structure InsertUser where
  username : String
  password : String
  email : String
  fullName : Option String := none
  googleId : Option String := none
  profilePicture : Option String := none
  deriving Repr, DecidableEq

structure Task where
  id : Nat
  userId : Nat
  title : String
  description : Option String
  estimatedDuration : Option Int
  actualDuration : Option Int
  status : String
  source : Option String
  externalId : Option String
  goalId : Option Nat
  priority : String
  completed : Bool
  createdAt : Nat
  dueDate : Option Nat
  deriving Repr, DecidableEq

/-- Validated body of `insertTaskSchema` (userId, title, description,
estimatedDuration, status, goalId, priority, dueDate; the zod schema defaults
`status` to "todo" and `priority` to "medium" when absent, so both are plain
strings after validation). -/
structure InsertTask where
  userId : Nat
  title : String
  description : Option String := none
  estimatedDuration : Option Int := none
  status : String := "todo"
  goalId : Option Nat := none
  priority : String := "medium"
  dueDate : Option Nat := none
  deriving Repr, DecidableEq

/-- `Partial<Task>` as received by `updateTask`. -/
structure TaskPatch where
  id : Option Nat := none
  userId : Option Nat := none
  title : Option String := none
  description : Option (Option String) := none
  estimatedDuration : Option (Option Int) := none
  actualDuration : Option (Option Int) := none
  status : Option String := none
  source : Option (Option String) := none
  externalId : Option (Option String) := none
  goalId : Option (Option Nat) := none
  priority : Option String := none
  completed : Option Bool := none
  createdAt : Option Nat := none
  dueDate : Option (Option Nat) := none
  deriving Repr, DecidableEq

/-- The spread `{ ...task, ...taskUpdate }` of `MemStorage.updateTask`. -/
def mergeTask (t : Task) (p : TaskPatch) : Task where
  id := p.id.getD t.id
  userId := p.userId.getD t.userId
  title := p.title.getD t.title
  description := p.description.getD t.description
  estimatedDuration := p.estimatedDuration.getD t.estimatedDuration
  actualDuration := p.actualDuration.getD t.actualDuration
  status := p.status.getD t.status
  source := p.source.getD t.source
  externalId := p.externalId.getD t.externalId
  goalId := p.goalId.getD t.goalId
  priority := p.priority.getD t.priority
  completed := p.completed.getD t.completed
  createdAt := p.createdAt.getD t.createdAt
  dueDate := p.dueDate.getD t.dueDate

structure Goal where
  id : Nat
  userId : Nat
  title : String
  description : Option String
  category : String
  timeframe : String
  progress : Int
  deadline : Option Nat
  priority : String
  parentGoalId : Option Nat
  completed : Bool
  createdAt : Nat
  deriving Repr, DecidableEq

/-- Validated body of `insertGoalSchema`. -/
structure InsertGoal where
  userId : Nat
  title : String
  description : Option String := none
  category : String
  timeframe : String
  deadline : Option Nat := none
  priority : String := "medium"
  parentGoalId : Option Nat := none
  deriving Repr, DecidableEq

/-- `Partial<Goal>` as received by `updateGoal`. -/
structure GoalPatch where
  id : Option Nat := none
  userId : Option Nat := none
  title : Option String := none
  description : Option (Option String) := none
  category : Option String := none
  timeframe : Option String := none
  progress : Option Int := none
  deadline : Option (Option Nat) := none
  priority : Option String := none
  parentGoalId : Option (Option Nat) := none
  completed : Option Bool := none
  createdAt : Option Nat := none
  deriving Repr, DecidableEq

/-- The spread `{ ...goal, ...goalUpdate }` of `MemStorage.updateGoal`. -/
def mergeGoal (g : Goal) (p : GoalPatch) : Goal where
  id := p.id.getD g.id
  userId := p.userId.getD g.userId
  title := p.title.getD g.title
  description := p.description.getD g.description
  category := p.category.getD g.category
  timeframe := p.timeframe.getD g.timeframe
  progress := p.progress.getD g.progress
  deadline := p.deadline.getD g.deadline
  priority := p.priority.getD g.priority
  parentGoalId := p.parentGoalId.getD g.parentGoalId
  completed := p.completed.getD g.completed
  createdAt := p.createdAt.getD g.createdAt

structure TimeBlock where
  id : Nat
  userId : Nat
  taskId : Option Nat
  startTime : Nat
  endTime : Nat
  calendarEventId : Option String
  buffer : Int
  createdAt : Nat
  deriving Repr, DecidableEq

/-- Validated body of `insertTimeBlockSchema` (buffer defaulted to 0). -/
structure InsertTimeBlock where
  userId : Nat
  taskId : Option Nat := none
  startTime : Nat
  endTime : Nat
  calendarEventId : Option String := none
  buffer : Int := 0
  deriving Repr, DecidableEq

structure DailyPlan where
  id : Nat
  userId : Nat
  date : Nat
  notes : Option String
  taskIds : List Nat
  timeBlockIds : List Nat
  createdAt : Nat
  deriving Repr, DecidableEq

structure InsertDailyPlan where
  userId : Nat
  date : Nat
  notes : Option String := none
  taskIds : List Nat := []
  timeBlockIds : List Nat := []
  deriving Repr, DecidableEq

structure Integration where
  id : Nat
  userId : Nat
  type' : String
  credentials : String
  syncStatus : String
  lastSynced : Option Nat
  createdAt : Nat
  deriving Repr, DecidableEq

structure InsertIntegration where
  userId : Nat
  type' : String
  credentials : String
  deriving Repr, DecidableEq

/-! ## MemStorage (class fields: one Map and one id counter per entity) -/

structure MemStorage where
  users : List (Nat × User) := []
  tasks : List (Nat × Task) := []
  goals : List (Nat × Goal) := []
  timeBlocks : List (Nat × TimeBlock) := []
  dailyPlans : List (Nat × DailyPlan) := []
  integrations : List (Nat × Integration) := []
  userIdCounter : Nat := 1
  taskIdCounter : Nat := 1
  goalIdCounter : Nat := 1
  timeBlockIdCounter : Nat := 1
  dailyPlanIdCounter : Nat := 1
  integrationIdCounter : Nat := 1
  deriving Repr, DecidableEq

/-! MemStorage user methods -/

def memGetUser (s : MemStorage) (id : Nat) : Option User :=
  mapGet s.users id

def memGetUserByUsername (s : MemStorage) (username : String) : Option User :=
  (mapValues s.users).find? (fun u => u.username == username)

def memGetUserByEmail (s : MemStorage) (email : String) : Option User :=
  (mapValues s.users).find? (fun u => u.email == email)

/-- `createUser`: `{ ...insertUser, id, createdAt: now }`. -/
def memCreateUser (s : MemStorage) (d : InsertUser) (now : Nat) : User × MemStorage :=
  let id := s.userIdCounter
  let user : User :=
    { id := id, username := d.username, password := d.password, email := d.email
      googleId := d.googleId, fullName := d.fullName
      profilePicture := d.profilePicture, createdAt := now }
  (user, { s with users := mapSet s.users id user, userIdCounter := id + 1 })

/-! MemStorage task methods -/

def memGetTask (s : MemStorage) (id : Nat) : Option Task :=
  mapGet s.tasks id

def memGetTasksByUser (s : MemStorage) (userId : Nat) : List Task :=
  (mapValues s.tasks).filter (fun t => t.userId == userId)

def memGetTasksByStatus (s : MemStorage) (userId : Nat) (status : String) : List Task :=
  (mapValues s.tasks).filter (fun t => t.userId == userId && t.status == status)

/-- `createTask`: `{ ...insertTask, id, createdAt: now, completed: false,
actualDuration: null, externalId: null }`.  The insert data carries no
`source` field and the spread adds none, so `source` is left unset. -/
def memCreateTask (s : MemStorage) (d : InsertTask) (now : Nat) : Task × MemStorage :=
  let id := s.taskIdCounter
  let task : Task :=
    { id := id, userId := d.userId, title := d.title, description := d.description
      estimatedDuration := d.estimatedDuration, actualDuration := none
      status := d.status, source := none, externalId := none
      goalId := d.goalId, priority := d.priority, completed := false
      createdAt := now, dueDate := d.dueDate }
  (task, { s with tasks := mapSet s.tasks id task, taskIdCounter := id + 1 })

def memUpdateTask (s : MemStorage) (id : Nat) (p : TaskPatch) :
    Option Task × MemStorage :=
  match mapGet s.tasks id with
  | none => (none, s)
  | some t =>
    let u := mergeTask t p
    (some u, { s with tasks := mapSet s.tasks id u })

def memDeleteTask (s : MemStorage) (id : Nat) : Bool × MemStorage :=
  let r := mapDelete s.tasks id
  (r.1, { s with tasks := r.2 })

/-! MemStorage goal methods -/

def memGetGoal (s : MemStorage) (id : Nat) : Option Goal :=
  mapGet s.goals id

def memGetGoalsByUser (s : MemStorage) (userId : Nat) : List Goal :=
  (mapValues s.goals).filter (fun g => g.userId == userId)

/-- `createGoal`: `{ ...insertGoal, id, progress: 0, completed: false,
createdAt: now }`. -/
def memCreateGoal (s : MemStorage) (d : InsertGoal) (now : Nat) : Goal × MemStorage :=
  let id := s.goalIdCounter
  let goal : Goal :=
    { id := id, userId := d.userId, title := d.title, description := d.description
      category := d.category, timeframe := d.timeframe, progress := 0
      deadline := d.deadline, priority := d.priority
      parentGoalId := d.parentGoalId, completed := false, createdAt := now }
  (goal, { s with goals := mapSet s.goals id goal, goalIdCounter := id + 1 })

def memUpdateGoal (s : MemStorage) (id : Nat) (p : GoalPatch) :
    Option Goal × MemStorage :=
  match mapGet s.goals id with
  | none => (none, s)
  | some g =>
    let u := mergeGoal g p
    (some u, { s with goals := mapSet s.goals id u })

/-- `deleteGoal`: `this.goals.delete(id)` and nothing else — no cascade,
null-out, or reject for child goals. -/
def memDeleteGoal (s : MemStorage) (id : Nat) : Bool × MemStorage :=
  let r := mapDelete s.goals id
  (r.1, { s with goals := r.2 })

/-! MemStorage time-block methods -/

def memGetTimeBlock (s : MemStorage) (id : Nat) : Option TimeBlock :=
  mapGet s.timeBlocks id

/-- `getTimeBlocksByUser`: filter on `block.userId === userId &&
block.startTime >= startDate && block.endTime <= endDate`. -/
def memGetTimeBlocksByUser (s : MemStorage) (userId : Nat)
    (startDate endDate : Nat) : List TimeBlock :=
  (mapValues s.timeBlocks).filter
    (fun b => b.userId == userId && startDate ≤ b.startTime && b.endTime ≤ endDate)

def memCreateTimeBlock (s : MemStorage) (d : InsertTimeBlock) (now : Nat) :
    TimeBlock × MemStorage :=
  let id := s.timeBlockIdCounter
  let block : TimeBlock :=
    { id := id, userId := d.userId, taskId := d.taskId, startTime := d.startTime
      endTime := d.endTime, calendarEventId := d.calendarEventId
      buffer := d.buffer, createdAt := now }
  (block, { s with timeBlocks := mapSet s.timeBlocks id block
                   timeBlockIdCounter := id + 1 })

/-! MemStorage daily-plan methods -/

/-- `getDailyPlan`: truncate the argument and each stored plan's date to
midnight, then find the first plan with matching user and day. -/
def memGetDailyPlan (s : MemStorage) (userId : Nat) (date : Nat) : Option DailyPlan :=
  let targetDate := truncToDay date
  (mapValues s.dailyPlans).find?
    (fun plan => plan.userId == userId && truncToDay plan.date == targetDate)

def memCreateDailyPlan (s : MemStorage) (d : InsertDailyPlan) (now : Nat) :
    DailyPlan × MemStorage :=
  let id := s.dailyPlanIdCounter
  let plan : DailyPlan :=
    { id := id, userId := d.userId, date := d.date, notes := d.notes
      taskIds := d.taskIds, timeBlockIds := d.timeBlockIds, createdAt := now }
  (plan, { s with dailyPlans := mapSet s.dailyPlans id plan
                  dailyPlanIdCounter := id + 1 })

/-! MemStorage integration methods -/

def memGetIntegration (s : MemStorage) (userId : Nat) (ty : String) : Option Integration :=
  (mapValues s.integrations).find? (fun i => i.userId == userId && i.type' == ty)

def memCreateIntegration (s : MemStorage) (d : InsertIntegration) (now : Nat) :
    Integration × MemStorage :=
  let id := s.integrationIdCounter
  let integ : Integration :=
    { id := id, userId := d.userId, type' := d.type', credentials := d.credentials
      syncStatus := "inactive", lastSynced := none, createdAt := now }
  (integ, { s with integrations := mapSet s.integrations id integ
                   integrationIdCounter := id + 1 })

/-! ## Mongo data model (shared/models.ts Mongoose documents, string ids) -/

structure MUser where
  _id : String
  username : String
  password : String
  email : String
  googleId : Option String
  fullName : Option String
  profilePicture : Option String
  createdAt : Nat
  deriving Repr, DecidableEq

structure MTask where
  _id : String
  userId : String
  title : String
  description : Option String
  estimatedDuration : Option Int
  actualDuration : Option Int
  status : String
  source : Option String
  externalId : Option String
  goalId : Option String
  priority : String
  completed : Bool
  createdAt : Nat
  dueDate : Option Nat
  deriving Repr, DecidableEq

/-- Validated body of the zod `insertTaskSchema` of shared/models.ts
(`status` defaults to "todo", `priority` to "medium"). -/
structure MInsertTask where
  userId : String
  title : String
  description : Option String := none
  estimatedDuration : Option Int := none
  status : String := "todo"
  goalId : Option String := none
  priority : String := "medium"
  dueDate : Option Nat := none
  deriving Repr, DecidableEq

/-- `Partial<ITask>` for `MongoStorage.updateTask` / `$set`. -/
structure MTaskPatch where
  userId : Option String := none
  title : Option String := none
  description : Option (Option String) := none
  estimatedDuration : Option (Option Int) := none
  actualDuration : Option (Option Int) := none
  status : Option String := none
  source : Option (Option String) := none
  externalId : Option (Option String) := none
  goalId : Option (Option String) := none
  priority : Option String := none
  completed : Option Bool := none
  createdAt : Option Nat := none
  dueDate : Option (Option Nat) := none
  deriving Repr, DecidableEq

/-- `$set` of a task patch into a stored document. -/
def mergeMTask (t : MTask) (p : MTaskPatch) : MTask where
  _id := t._id
  userId := p.userId.getD t.userId
  title := p.title.getD t.title
  description := p.description.getD t.description
  estimatedDuration := p.estimatedDuration.getD t.estimatedDuration
  actualDuration := p.actualDuration.getD t.actualDuration
  status := p.status.getD t.status
  source := p.source.getD t.source
  externalId := p.externalId.getD t.externalId
  goalId := p.goalId.getD t.goalId
  priority := p.priority.getD t.priority
  completed := p.completed.getD t.completed
  createdAt := p.createdAt.getD t.createdAt
  dueDate := p.dueDate.getD t.dueDate

structure MTimeBlock where
  _id : String
  userId : String
  taskId : Option String
  startTime : Nat
  endTime : Nat
  calendarEventId : Option String
  buffer : Int
  createdAt : Nat
  deriving Repr, DecidableEq

structure MDailyPlan where
  _id : String
  userId : String
  date : Nat
  notes : Option String
  taskIds : List String
  timeBlockIds : List String
  createdAt : Nat
  deriving Repr, DecidableEq

structure MIntegration where
  _id : String
  userId : String
  type' : String
  credentials : String
  syncStatus : String
  lastSynced : Option Nat
  createdAt : Nat
  deriving Repr, DecidableEq

/-- `Partial<IIntegration>` as sent to `updateIntegration` / `$set`
(`_id` itself is immutable in Mongo and therefore not patchable). -/
structure MIntegrationPatch where
  userId : Option String := none
  type' : Option String := none
  credentials : Option String := none
  syncStatus : Option String := none
  lastSynced : Option (Option Nat) := none
  createdAt : Option Nat := none
  deriving Repr, DecidableEq

def mergeMIntegration (i : MIntegration) (p : MIntegrationPatch) : MIntegration where
  _id := i._id
  userId := p.userId.getD i.userId
  type' := p.type'.getD i.type'
  credentials := p.credentials.getD i.credentials
  syncStatus := p.syncStatus.getD i.syncStatus
  lastSynced := p.lastSynced.getD i.lastSynced
  createdAt := p.createdAt.getD i.createdAt

/-! ## Mongo collection primitives -/

/-- `Model.findByIdAndUpdate(id, { $set: patch }, { new: true })`:
update the first document whose id matches, return the updated document. -/
def findByIdAndUpdate {α : Type} (getId : α → String) (upd : α → α)
    (id : String) : List α → Option α × List α
  | [] => (none, [])
  | d :: ds =>
    if getId d == id then
      let u := upd d
      (some u, u :: ds)
    else
      let r := findByIdAndUpdate getId upd id ds
      (r.1, d :: r.2)

/-- `Model.findByIdAndDelete(id)`: remove the first document whose id
matches, returning it. -/
def findByIdAndDelete {α : Type} (getId : α → String) (id : String) :
    List α → Option α × List α
  | [] => (none, [])
  | d :: ds =>
    if getId d == id then (some d, ds)
    else
      let r := findByIdAndDelete getId id ds
      (r.1, d :: r.2)

/-- MongoStorage collections (session store omitted). -/
structure MongoState where
  users : List MUser := []
  tasks : List MTask := []
  timeBlocks : List MTimeBlock := []
  dailyPlans : List MDailyPlan := []
  integrations : List MIntegration := []
  deriving Repr, DecidableEq

/-! MongoStorage methods used by the claims -/

def mongoGetUserByUsername (c : List MUser) (username : String) : Option MUser :=
  c.find? (fun u => u.username == username)

def mongoGetUserByEmail (c : List MUser) (email : String) : Option MUser :=
  c.find? (fun u => u.email == email)

/-- `createUser`: `new User(userData)` with the schema default `createdAt`;
the `_id` is generated externally and passed in. -/
def mongoCreateUser (d : InsertUser) (oid : String) (now : Nat) : MUser where
  _id := oid
  username := d.username
  password := d.password
  email := d.email
  googleId := d.googleId
  fullName := d.fullName
  profilePicture := d.profilePicture
  createdAt := now

def mongoGetTask (c : List MTask) (id : String) : Option MTask :=
  c.find? (fun t => t._id == id)

def mongoGetTasksByUser (c : List MTask) (userId : String) : List MTask :=
  c.filter (fun t => t.userId == userId)

def mongoGetTasksByStatus (c : List MTask) (userId : String) (status : String) :
    List MTask :=
  c.filter (fun t => t.userId == userId && t.status == status)

/-- `createTask`: `new Task({ ...taskData, userId, goalId })`; the Mongoose
schema supplies `source: 'manual'`, `completed: false` and `createdAt: now`
as defaults, and leaves the other unset fields absent. -/
def mongoCreateTask (d : MInsertTask) (oid : String) (now : Nat) : MTask where
  _id := oid
  userId := d.userId
  title := d.title
  description := d.description
  estimatedDuration := d.estimatedDuration
  actualDuration := none
  status := d.status
  source := some "manual"
  externalId := none
  goalId := d.goalId
  priority := d.priority
  completed := false
  createdAt := now
  dueDate := d.dueDate

def mongoUpdateTask (c : List MTask) (id : String) (p : MTaskPatch) :
    Option MTask × List MTask :=
  findByIdAndUpdate (·._id) (mergeMTask · p) id c

def mongoDeleteTask (c : List MTask) (id : String) : Bool × List MTask :=
  let r := findByIdAndDelete (·._id) id c
  (r.1.isSome, r.2)

/-- `getTimeBlocksByUser`: `find({ userId, startTime: { $gte: startDate },
endTime: { $lte: endDate } })`. -/
def mongoGetTimeBlocksByUser (c : List MTimeBlock) (userId : String)
    (startDate endDate : Nat) : List MTimeBlock :=
  c.filter (fun b => b.userId == userId && startDate ≤ b.startTime && b.endTime ≤ endDate)

/-- `createTimeBlock`: `new TimeBlock({ ...timeBlockData, userId, taskId })`
with the schema defaults (`buffer` already defaulted by validation,
`createdAt: now`). -/
def mongoCreateTimeBlock (userId : String) (taskId : Option String)
    (startTime endTime : Nat) (calendarEventId : Option String) (buffer : Int)
    (oid : String) (now : Nat) : MTimeBlock where
  _id := oid
  userId := userId
  taskId := taskId
  startTime := startTime
  endTime := endTime
  calendarEventId := calendarEventId
  buffer := buffer
  createdAt := now

/-- `getDailyPlan`: `findOne({ userId, date: { $gte: startOfDay, $lte:
endOfDay } })` where `startOfDay` is the argument truncated to midnight and
`endOfDay` is 23:59:59.999 of the same day. -/
def mongoGetDailyPlan (c : List MDailyPlan) (userId : String) (date : Nat) :
    Option MDailyPlan :=
  let startOfDay := truncToDay date
  let endOfDay := truncToDay date + (dayMs - 1)
  c.find? (fun plan =>
    plan.userId == userId && startOfDay ≤ plan.date && plan.date ≤ endOfDay)

def mongoUpdateIntegration (c : List MIntegration) (id : String)
    (p : MIntegrationPatch) : Option MIntegration × List MIntegration :=
  findByIdAndUpdate (·._id) (mergeMIntegration · p) id c

def mongoDeleteIntegration (c : List MIntegration) (id : String) :
    Bool × List MIntegration :=
  let r := findByIdAndDelete (·._id) id c
  (r.1.isSome, r.2)

def mongoFindIntegrationById (c : List MIntegration) (id : String) :
    Option MIntegration :=
  c.find? (fun i => i._id == id)

/-! ## Mongo route handlers (first routes file of the repository) -/

/-- `Types.ObjectId.isValid` for the 24-hex-character string form (the form
every id in this development uses). -/
def isValidObjectId (s : String) : Bool :=
  s.length == 24 &&
    s.toList.all (fun c =>
      c.isDigit || ('a' ≤ c && c ≤ 'f') || ('A' ≤ c && c ≤ 'F'))

/-- `checkOwnership(resourceUserId, userId)`: string comparison of the two
ids. -/
def checkOwnership (resourceUserId : String) (userId : String) : Bool :=
  resourceUserId == userId

/-- Outcome of a route: HTTP status, optional JSON document, new state. -/
structure RouteOut (α : Type) where
  status : Nat
  body : Option α
  state : MongoState
  deriving Repr, DecidableEq

/-- `PATCH /api/tasks/:id` (Mongo routes): validate the id, load the task,
404 when absent, 403 when owned by another user, otherwise `$set` the body. -/
def mongoPatchTaskRoute (st : MongoState) (userId : String) (id : String)
    (body : MTaskPatch) : RouteOut MTask :=
  if !(isValidObjectId id) then ⟨400, none, st⟩
  else
    match mongoGetTask st.tasks id with
    | none => ⟨404, none, st⟩
    | some task =>
      if !(checkOwnership task.userId userId) then ⟨403, none, st⟩
      else
        let r := mongoUpdateTask st.tasks id body
        ⟨200, r.1, { st with tasks := r.2 }⟩

/-- `DELETE /api/tasks/:id` (Mongo routes). -/
def mongoDeleteTaskRoute (st : MongoState) (userId : String) (id : String) :
    RouteOut MTask :=
  if !(isValidObjectId id) then ⟨400, none, st⟩
  else
    match mongoGetTask st.tasks id with
    | none => ⟨404, none, st⟩
    | some task =>
      if !(checkOwnership task.userId userId) then ⟨403, none, st⟩
      else
        let r := mongoDeleteTask st.tasks id
        ⟨204, none, { st with tasks := r.2 }⟩

/-- `PATCH /api/integrations/:id` (Mongo routes): the ownership check
compares `req.body.userId` — a value supplied by the requester — with the
acting user; the stored record's owner is never consulted.  A body without a
`userId` makes `checkOwnership` throw on `undefined.toString()`, which the
catch block reports as 500. -/
def mongoPatchIntegrationRoute (st : MongoState) (userId : String) (id : String)
    (body : MIntegrationPatch) : RouteOut MIntegration :=
  if !(isValidObjectId id) then ⟨400, none, st⟩
  else
    match body.userId with
    | none => ⟨500, none, st⟩
    | some bodyUserId =>
      if !(checkOwnership bodyUserId userId) then ⟨403, none, st⟩
      else
        let r := mongoUpdateIntegration st.integrations id body
        match r.1 with
        | none => ⟨404, none, st⟩
        | some updated => ⟨200, some updated, { st with integrations := r.2 }⟩

/-- `DELETE /api/integrations/:id` (Mongo routes): no ownership check of any
kind — a valid existing id is deleted no matter who owns the record. -/
def mongoDeleteIntegrationRoute (st : MongoState) (userId : String) (id : String) :
    RouteOut MIntegration :=
  if !(isValidObjectId id) then ⟨400, none, st⟩
  else
    let r := mongoDeleteIntegration st.integrations id
    if !r.1 then ⟨404, none, st⟩
    else ⟨204, none, { st with integrations := r.2 }⟩

/-! ## TimeBlock creation route and its zod validation -/

/-- Raw JSON body of `POST /api/timeblocks` (before validation; the route
overwrites `userId` with the session user, so the body's own `userId` is
irrelevant). -/
structure RawTimeBlockBody where
  taskId : Option String := none
  startTime : Option Nat := none
  endTime : Option Nat := none
  calendarEventId : Option String := none
  buffer : Option Int := none
  deriving Repr, DecidableEq

/-- The zod `insertTimeBlockSchema` of shared/models.ts applied to
`{ ...req.body, userId }`: `startTime` and `endTime` must be present dates,
`taskId`/`calendarEventId` are optional, `buffer` defaults to 0.  No
constraint relates `endTime` to `startTime`. -/
def parseInsertTimeBlock (userId : String) (b : RawTimeBlockBody) :
    Option (String × Option String × Nat × Nat × Option String × Int) :=
  match b.startTime, b.endTime with
  | some s, some e => some (userId, b.taskId, s, e, b.calendarEventId, b.buffer.getD 0)
  | _, _ => none

/-- `POST /api/timeblocks` (Mongo routes): validate, then create; a zod
failure is reported as 400. -/
def mongoPostTimeBlockRoute (st : MongoState) (userId : String)
    (body : RawTimeBlockBody) (oid : String) (now : Nat) : RouteOut MTimeBlock :=
  match parseInsertTimeBlock userId body with
  | none => ⟨400, none, st⟩
  | some (uid, taskId, s, e, cal, buf) =>
    let block := mongoCreateTimeBlock uid taskId s e cal buf oid now
    ⟨201, some block, { st with timeBlocks := st.timeBlocks ++ [block] }⟩

/-! ## Registration routes (both auth variants) -/

inductive RegisterResult (α : Type) where
  | badRequest (msg : String)
  | created (user : α)
  deriving Repr, DecidableEq

/-- `POST /api/register` of the in-memory auth variant: only the username is
checked for duplication before the user is created. -/
def memRegisterRoute (hash : String → String) (s : MemStorage)
    (body : InsertUser) (now : Nat) : RegisterResult User × MemStorage :=
  match memGetUserByUsername s body.username with
  | some _ => (.badRequest "Username already exists", s)
  | none =>
    let r := memCreateUser s { body with password := hash body.password } now
    (.created r.1, r.2)

/-- `POST /api/register` of the Mongo auth variant: duplicate username, then
duplicate email, are both rejected before the user is created. -/
def mongoRegisterRoute (hash : String → String) (c : List MUser)
    (body : InsertUser) (oid : String) (now : Nat) :
    RegisterResult MUser × List MUser :=
  match mongoGetUserByUsername c body.username with
  | some _ => (.badRequest "Username already exists", c)
  | none =>
    match mongoGetUserByEmail c body.email with
    | some _ => (.badRequest "Email already exists", c)
    | none =>
      let u := mongoCreateUser { body with password := hash body.password } oid now
      (.created u, c ++ [u])

/-! ## Backend correspondence (used to compare MemStorage and MongoStorage) -/

/-- Field-for-field correspondence between an in-memory task and a Mongo task
document, under an id translation `f`. -/
def taskCorr (f : Nat → String) (t : Task) (d : MTask) : Bool :=
  d._id == f t.id && d.userId == f t.userId && d.title == t.title &&
  d.description == t.description && d.estimatedDuration == t.estimatedDuration &&
  d.actualDuration == t.actualDuration && d.status == t.status &&
  d.source == t.source && d.externalId == t.externalId &&
  d.goalId == t.goalId.map f && d.priority == t.priority &&
  d.completed == t.completed && d.createdAt == t.createdAt &&
  d.dueDate == t.dueDate

/-- Correspondence of a keyed MemStorage map entry with a Mongo document:
the map key translates to the document id and the records correspond. -/
def taskEntryCorr (f : Nat → String) (e : Nat × Task) (d : MTask) : Bool :=
  f e.1 == d._id && taskCorr f e.2 d

def tbCorr (f : Nat → String) (b : TimeBlock) (d : MTimeBlock) : Bool :=
  d._id == f b.id && d.userId == f b.userId && d.taskId == b.taskId.map f &&
  d.startTime == b.startTime && d.endTime == b.endTime &&
  d.calendarEventId == b.calendarEventId && d.buffer == b.buffer &&
  d.createdAt == b.createdAt

def tbEntryCorr (f : Nat → String) (e : Nat × TimeBlock) (d : MTimeBlock) : Bool :=
  f e.1 == d._id && tbCorr f e.2 d

def dpCorr (f : Nat → String) (p : DailyPlan) (d : MDailyPlan) : Bool :=
  d._id == f p.id && d.userId == f p.userId && d.date == p.date &&
  d.notes == p.notes && d.taskIds == p.taskIds.map f &&
  d.timeBlockIds == p.timeBlockIds.map f && d.createdAt == p.createdAt

def dpEntryCorr (f : Nat → String) (e : Nat × DailyPlan) (d : MDailyPlan) : Bool :=
  f e.1 == d._id && dpCorr f e.2 d

def optionCorr {α β : Type} (r : α → β → Bool) : Option α → Option β → Bool
  | none, none => true
  | some a, some b => r a b
  | _, _ => false

def listCorr {α β : Type} (r : α → β → Bool) : List α → List β → Bool
  | [], [] => true
  | a :: l₁, b :: l₂ => r a b && listCorr r l₁ l₂
  | _, _ => false

/-! ## Helper lemmas -/

theorem mapGet_mapSet_self {α : Type} (m : List (Nat × α)) (k : Nat) (v : α) :
    mapGet (mapSet m k v) k = some v := by
  induction m with
  | nil => simp [mapSet, mapGet]
  | cons e es ih =>
    by_cases h : e.1 = k
    · simp [mapSet, mapGet, h]
    · simp only [mapSet, beq_iff_eq, h, if_false]
      simpa [mapGet, List.find?_cons, beq_iff_eq, h] using ih

theorem mem_mapDelete_of_nodup {α : Type} (k : Nat) :
    ∀ (m : List (Nat × α)), (m.map (·.1)).Nodup →
      ∀ e : Nat × α, (e ∈ (mapDelete m k).2 ↔ (e ∈ m ∧ e.1 ≠ k))
  | [], _, e => by simp [mapDelete]
  | e' :: es, hnd, e => by
    rw [List.map_cons, List.nodup_cons] at hnd
    obtain ⟨hkey, hnd'⟩ := hnd
    by_cases h : e'.1 = k
    · simp only [mapDelete, beq_iff_eq, h, if_true]
      constructor
      · intro hmem
        refine ⟨List.mem_cons_of_mem _ hmem, ?_⟩
        intro hek
        exact hkey (h ▸ hek ▸ List.mem_map_of_mem (·.1) hmem)
      · rintro ⟨hmem, hek⟩
        rcases List.mem_cons.mp hmem with rfl | hmem
        · exact absurd h hek
        · exact hmem
    · simp only [mapDelete, beq_iff_eq, h, if_false, List.mem_cons]
      rw [mem_mapDelete_of_nodup k es hnd' e]
      constructor
      · rintro (rfl | ⟨hmem, hek⟩)
        · exact ⟨Or.inl rfl, h⟩
        · exact ⟨Or.inr hmem, hek⟩
      · rintro ⟨rfl | hmem, hek⟩
        · exact Or.inl rfl
        · exact Or.inr ⟨hmem, hek⟩

theorem mapGet_mapDelete_self {α : Type} (m : List (Nat × α)) (k : Nat)
    (hnd : (m.map (·.1)).Nodup) : mapGet (mapDelete m k).2 k = none := by
  have hmem := mem_mapDelete_of_nodup k m hnd
  simp only [mapGet, Option.map_eq_none']
  rw [List.find?_eq_none]
  intro e he
  simp only [beq_iff_eq]
  exact ((hmem e).mp he).2

theorem findByIdAndDelete_fst_isSome {α : Type} (getId : α → String) (id : String) :
    ∀ l : List α,
      (findByIdAndDelete getId id l).1.isSome =
        (l.find? (fun x => getId x == id)).isSome
  | [] => rfl
  | d :: ds => by
    by_cases h : getId d = id
    · simp [findByIdAndDelete, List.find?_cons, h]
    · simp only [findByIdAndDelete, beq_iff_eq, h, if_false]
      rw [List.find?_cons_of_neg _ (by simp [h])]
      exact findByIdAndDelete_fst_isSome getId id ds

theorem find?_findByIdAndDelete_self {α : Type} (getId : α → String) (id : String) :
    ∀ l : List α, (l.map getId).Nodup →
      (findByIdAndDelete getId id l).2.find? (fun x => getId x == id) = none
  | [], _ => rfl
  | d :: ds, hnd => by
    rw [List.map_cons, List.nodup_cons] at hnd
    obtain ⟨hkey, hnd'⟩ := hnd
    by_cases h : getId d = id
    · simp only [findByIdAndDelete, beq_iff_eq, h, if_true]
      rw [List.find?_eq_none]
      intro x hx
      simp only [beq_iff_eq]
      intro hxid
      exact hkey (h ▸ hxid ▸ List.mem_map_of_mem getId hx)
    · simp only [findByIdAndDelete, beq_iff_eq, h, if_false]
      rw [List.find?_cons_of_neg _ (by simp [h])]
      exact find?_findByIdAndDelete_self getId id ds hnd'

theorem listCorr_find? {α β : Type} (r : α → β → Bool) (p : α → Bool) (q : β → Bool) :
    ∀ (l₁ : List α) (l₂ : List β),
      listCorr r l₁ l₂ = true →
      (∀ a ∈ l₁, ∀ b, r a b = true → p a = q b) →
      optionCorr r (l₁.find? p) (l₂.find? q) = true
  | [], [], _, _ => rfl
  | [], _ :: _, h, _ => by simp [listCorr] at h
  | _ :: _, [], h, _ => by simp [listCorr] at h
  | a :: l₁, b :: l₂, h, hpq => by
    rw [listCorr, Bool.and_eq_true] at h
    obtain ⟨hr, hrest⟩ := h
    have hpq0 : p a = q b := hpq a (List.mem_cons_self a l₁) b hr
    by_cases hpa : p a = true
    · rw [List.find?_cons_of_pos _ hpa, List.find?_cons_of_pos _ (hpq0 ▸ hpa)]
      exact hr
    · rw [List.find?_cons_of_neg _ hpa, List.find?_cons_of_neg _ (hpq0 ▸ hpa)]
      exact listCorr_find? r p q l₁ l₂ hrest
        (fun x hx b' hb' => hpq x (List.mem_cons_of_mem a hx) b' hb')

theorem listCorr_filter {α β : Type} (r : α → β → Bool) (p : α → Bool) (q : β → Bool) :
    ∀ (l₁ : List α) (l₂ : List β),
      listCorr r l₁ l₂ = true →
      (∀ a ∈ l₁, ∀ b, r a b = true → p a = q b) →
      listCorr r (l₁.filter p) (l₂.filter q) = true
  | [], [], _, _ => rfl
  | [], _ :: _, h, _ => by simp [listCorr] at h
  | _ :: _, [], h, _ => by simp [listCorr] at h
  | a :: l₁, b :: l₂, h, hpq => by
    rw [listCorr, Bool.and_eq_true] at h
    obtain ⟨hr, hrest⟩ := h
    have hpq0 : p a = q b := hpq a (List.mem_cons_self a l₁) b hr
    have htail := listCorr_filter r p q l₁ l₂ hrest
      (fun x hx b' hb' => hpq x (List.mem_cons_of_mem a hx) b' hb')
    by_cases hpa : p a = true
    · rw [List.filter_cons_of_pos hpa, List.filter_cons_of_pos (hpq0 ▸ hpa)]
      rw [listCorr, Bool.and_eq_true]
      exact ⟨hr, htail⟩
    · rw [List.filter_cons_of_neg (by simpa using hpa),
        List.filter_cons_of_neg (by simp [← hpq0]; simpa using hpa)]
      exact htail

theorem listCorr_map_left {α α' β : Type} (r : α → β → Bool) (r' : α' → β → Bool)
    (g : α → α') (himp : ∀ a b, r a b = true → r' (g a) b = true) :
    ∀ (l₁ : List α) (l₂ : List β),
      listCorr r l₁ l₂ = true → listCorr r' (l₁.map g) l₂ = true
  | [], [], _ => rfl
  | [], _ :: _, h => by simp [listCorr] at h
  | _ :: _, [], h => by simp [listCorr] at h
  | a :: l₁, b :: l₂, h => by
    rw [listCorr, Bool.and_eq_true] at h
    rw [List.map_cons, listCorr, Bool.and_eq_true]
    exact ⟨himp a b h.1, listCorr_map_left r r' g himp l₁ l₂ h.2⟩

theorem optionCorr_map_left {α α' β : Type} (r : α → β → Bool) (r' : α' → β → Bool)
    (g : α → α') (himp : ∀ a b, r a b = true → r' (g a) b = true) :
    ∀ (o₁ : Option α) (o₂ : Option β),
      optionCorr r o₁ o₂ = true → optionCorr r' (o₁.map g) o₂ = true
  | none, none, _ => rfl
  | some a, some b, h => himp a b h
  | none, some _, h => by simp [optionCorr] at h
  | some _, none, h => by simp [optionCorr] at h

/-- A timestamp truncates to the same day as `d` exactly when it lies in the
closed millisecond range `[midnight of d, 23:59:59.999 of d]`. -/
theorem truncToDay_eq_iff (x d : Nat) :
    truncToDay x = truncToDay d ↔
      (truncToDay d ≤ x ∧ x ≤ truncToDay d + (dayMs - 1)) := by
  unfold truncToDay dayMs
  omega

/-! ## Claim C1 -/

/-- Claim C1 is false on the code: `createTask` writes `completed: false`
after spreading the insert data, so inserting `status = "done"` yields a
stored record with `status = "done"` and `completed = false`; and
`updateTask` is a blind spread, so patching only `status` to "done" on a
consistent todo task again leaves `completed = false`. -/
theorem c1_completed_status_counterexample :
    (memCreateTask {} { userId := 1, title := "write spec", status := "done" } 0).1.status = "done"
    ∧ (memCreateTask {} { userId := 1, title := "write spec", status := "done" } 0).1.completed = false
    ∧ ¬ ((memCreateTask {} { userId := 1, title := "write spec", status := "done" } 0).1.completed
          = ((memCreateTask {} { userId := 1, title := "write spec", status := "done" } 0).1.status == "done"))
    ∧ (mergeTask (memCreateTask {} { userId := 1, title := "write spec" } 0).1
        { status := some "done" }).status = "done"
    ∧ (mergeTask (memCreateTask {} { userId := 1, title := "write spec" } 0).1
        { status := some "done" }).completed = false := by
  decide

/-- Claim C1 (amended): `createTask` initializes `completed` to `false`
regardless of the inserted status, so `completed = (status = "done")` holds
immediately after a create exactly when the inserted status is not "done";
and the `updateTask` merge leaves `completed` unchanged whenever the patch
does not name it while `status` becomes the patch's value when it does, so
an update setting only `status` never re-establishes the agreement. -/
theorem c1_completed_status_amended (s : MemStorage) (d : InsertTask) (now : Nat)
    (t : Task) (p : TaskPatch) (hp : p.completed = none) :
    (memCreateTask s d now).1.completed = false
    ∧ (memCreateTask s d now).1.status = d.status
    ∧ (((memCreateTask s d now).1.completed
          = ((memCreateTask s d now).1.status == "done")) ↔ d.status ≠ "done")
    ∧ (mergeTask t p).completed = t.completed
    ∧ (mergeTask t p).status = p.status.getD t.status := by
  refine ⟨rfl, rfl, ?_, ?_, rfl⟩
  · show (false = (d.status == "done")) ↔ d.status ≠ "done"
    rw [eq_comm]
    exact beq_eq_false_iff_ne
  · simp [mergeTask, hp]

/-- Witness for C1 at a concrete insert, task and empty patch. -/
theorem c1_completed_status_amended_witness :
    (({} : TaskPatch).completed = none)
    ∧ ((memCreateTask {} { userId := 1, title := "w" } 0).1.completed = false
      ∧ (memCreateTask {} { userId := 1, title := "w" } 0).1.status
          = ({ userId := 1, title := "w" } : InsertTask).status
      ∧ (((memCreateTask {} { userId := 1, title := "w" } 0).1.completed
            = ((memCreateTask {} { userId := 1, title := "w" } 0).1.status == "done"))
          ↔ ({ userId := 1, title := "w" } : InsertTask).status ≠ "done")
      ∧ (mergeTask (memCreateTask {} { userId := 1, title := "w" } 0).1 {}).completed
          = (memCreateTask {} { userId := 1, title := "w" } 0).1.completed
      ∧ (mergeTask (memCreateTask {} { userId := 1, title := "w" } 0).1 {}).status
          = (({} : TaskPatch).status.getD
              (memCreateTask {} { userId := 1, title := "w" } 0).1.status)) :=
  ⟨rfl, c1_completed_status_amended {} { userId := 1, title := "w" } 0
    (memCreateTask {} { userId := 1, title := "w" } 0).1 {} rfl⟩

/-! ## Claim C3 -/

/-- Concrete `POST /api/timeblocks` body whose end precedes its start. -/
def c3Body : RawTimeBlockBody := { startTime := some 100, endTime := some 50 }

/-- Claim C3 is false on the code: a create request whose endTime (50) is
below its startTime (100) passes the zod validation — which checks only
presence and types — and the block is created with status 201. -/
theorem c3_timeblock_validation_counterexample :
    (mongoPostTimeBlockRoute {} "u1" c3Body "tb1" 0).status = 201
    ∧ ((mongoPostTimeBlockRoute {} "u1" c3Body "tb1" 0).state.timeBlocks.map
        (fun b => (b.startTime, b.endTime))) = [(100, 50)]
    ∧ ((mongoPostTimeBlockRoute {} "u1" c3Body "tb1" 0).state.timeBlocks.all
        (fun b => b.endTime ≤ b.startTime)) = true := by
  decide

/-- Claim C3 (amended): `insertTimeBlockSchema` checks only that `startTime`
and `endTime` are present dates (defaulting `buffer` to 0) and never compares
them, so every create request with present timestamps — including one with
endTime ≤ startTime — is accepted with 201 and the TimeBlock is stored. -/
theorem c3_timeblock_validation_amended (st : MongoState) (userId : String)
    (body : RawTimeBlockBody) (s e : Nat) (oid : String) (now : Nat)
    (hs : body.startTime = some s) (he : body.endTime = some e) (_hle : e ≤ s) :
    (mongoPostTimeBlockRoute st userId body oid now).status = 201
    ∧ (mongoPostTimeBlockRoute st userId body oid now).body =
        some (mongoCreateTimeBlock userId body.taskId s e body.calendarEventId
          (body.buffer.getD 0) oid now)
    ∧ (mongoCreateTimeBlock userId body.taskId s e body.calendarEventId
        (body.buffer.getD 0) oid now)
        ∈ (mongoPostTimeBlockRoute st userId body oid now).state.timeBlocks := by
  simp [mongoPostTimeBlockRoute, parseInsertTimeBlock, hs, he]

/-- Witness for C3 at the concrete inverted-range body. -/
theorem c3_timeblock_validation_amended_witness :
    (c3Body.startTime = some 100 ∧ c3Body.endTime = some 50 ∧ 50 ≤ 100)
    ∧ ((mongoPostTimeBlockRoute {} "u1" c3Body "tb1" 0).status = 201
      ∧ (mongoPostTimeBlockRoute {} "u1" c3Body "tb1" 0).body =
          some (mongoCreateTimeBlock "u1" c3Body.taskId 100 50 c3Body.calendarEventId
            (c3Body.buffer.getD 0) "tb1" 0)
      ∧ (mongoCreateTimeBlock "u1" c3Body.taskId 100 50 c3Body.calendarEventId
          (c3Body.buffer.getD 0) "tb1" 0)
          ∈ (mongoPostTimeBlockRoute {} "u1" c3Body "tb1" 0).state.timeBlocks) :=
  ⟨⟨rfl, rfl, by decide⟩,
    c3_timeblock_validation_amended {} "u1" c3Body 100 50 "tb1" 0 rfl rfl (by decide)⟩

/-! ## Claim C7 -/

/-- Goals used by the C7 counterexample: goal 2 is a child of goal 1. -/
def c7Parent : Goal :=
  { id := 1, userId := 1, title := "parent", description := none, category := "c"
    timeframe := "weekly", progress := 0, deadline := none, priority := "medium"
    parentGoalId := none, completed := false, createdAt := 0 }

def c7Child : Goal :=
  { id := 2, userId := 1, title := "child", description := none, category := "c"
    timeframe := "weekly", progress := 0, deadline := none, priority := "medium"
    parentGoalId := some 1, completed := false, createdAt := 0 }

def c7Store : MemStorage :=
  { goals := [(1, c7Parent), (2, c7Child)], goalIdCounter := 3 }

/-- Claim C7 is false on the code: deleting goal 1, the parent of goal 2,
succeeds, removes only goal 1, and leaves goal 2's `parentGoalId` pointing at
the now-nonexistent id 1 — an orphan reference, with no resolution policy. -/
theorem c7_delete_goal_counterexample :
    (memDeleteGoal c7Store 1).1 = true
    ∧ memGetGoal (memDeleteGoal c7Store 1).2 1 = none
    ∧ ((mapValues (memDeleteGoal c7Store 1).2.goals).any
        (fun g => g.parentGoalId == some 1)) = true := by
  decide

/-- Claim C7 (amended): `deleteGoal` removes exactly the addressed map entry
and applies no policy to children: every other goal survives completely
unchanged (so a child keeps its `parentGoalId`, which may now dangle), and
the deleted id no longer resolves. -/
theorem c7_delete_goal_amended (s : MemStorage) (id : Nat)
    (hnd : (s.goals.map (·.1)).Nodup) :
    (∀ e : Nat × Goal, e ∈ (memDeleteGoal s id).2.goals ↔ (e ∈ s.goals ∧ e.1 ≠ id))
    ∧ memGetGoal (memDeleteGoal s id).2 id = none := by
  constructor
  · intro e
    exact mem_mapDelete_of_nodup id s.goals hnd e
  · show mapGet (mapDelete s.goals id).2 id = none
    exact mapGet_mapDelete_self s.goals id hnd

/-- Witness for C7 at the concrete two-goal store. -/
theorem c7_delete_goal_amended_witness :
    ((c7Store.goals.map (·.1)).Nodup)
    ∧ ((∀ e : Nat × Goal,
          e ∈ (memDeleteGoal c7Store 1).2.goals ↔ (e ∈ c7Store.goals ∧ e.1 ≠ 1))
      ∧ memGetGoal (memDeleteGoal c7Store 1).2 1 = none) :=
  ⟨by decide, c7_delete_goal_amended c7Store 1 (by decide)⟩

/-! ## Claim C10 -/

/-- Claim C10: storage updates are unrestricted shallow merges.  The stored
and returned record is exactly `mergeTask t p`; that merge takes, field by
field, the patch's value when the field is named and the old value
otherwise; and no field is protected — a patch naming `id` or `userId`
rewrites them (shown for both the Task and the Goal merge of MemStorage). -/
theorem c10_update_shallow_merge (s : MemStorage) (k : Nat) (p : TaskPatch)
    (t0 t : Task) (g : Goal) (q : GoalPatch)
    (ht : mapGet s.tasks k = some t0) :
    ((memUpdateTask s k p).1 = some (mergeTask t0 p)
      ∧ mapGet (memUpdateTask s k p).2.tasks k = some (mergeTask t0 p))
    ∧ mergeTask t p =
        { id := p.id.getD t.id, userId := p.userId.getD t.userId
          title := p.title.getD t.title, description := p.description.getD t.description
          estimatedDuration := p.estimatedDuration.getD t.estimatedDuration
          actualDuration := p.actualDuration.getD t.actualDuration
          status := p.status.getD t.status, source := p.source.getD t.source
          externalId := p.externalId.getD t.externalId
          goalId := p.goalId.getD t.goalId, priority := p.priority.getD t.priority
          completed := p.completed.getD t.completed
          createdAt := p.createdAt.getD t.createdAt
          dueDate := p.dueDate.getD t.dueDate }
    ∧ (∀ v, p.id = some v → (mergeTask t p).id = v)
    ∧ (∀ v, p.userId = some v → (mergeTask t p).userId = v)
    ∧ mergeGoal g q =
        { id := q.id.getD g.id, userId := q.userId.getD g.userId
          title := q.title.getD g.title, description := q.description.getD g.description
          category := q.category.getD g.category, timeframe := q.timeframe.getD g.timeframe
          progress := q.progress.getD g.progress, deadline := q.deadline.getD g.deadline
          priority := q.priority.getD g.priority
          parentGoalId := q.parentGoalId.getD g.parentGoalId
          completed := q.completed.getD g.completed
          createdAt := q.createdAt.getD g.createdAt }
    ∧ (∀ v, q.id = some v → (mergeGoal g q).id = v)
    ∧ (∀ v, q.userId = some v → (mergeGoal g q).userId = v) := by
  refine ⟨⟨?_, ?_⟩, rfl, ?_, ?_, rfl, ?_, ?_⟩
  · simp [memUpdateTask, ht]
  · simp [memUpdateTask, ht, mapGet_mapSet_self]
  · intro v hv; simp [mergeTask, hv]
  · intro v hv; simp [mergeTask, hv]
  · intro v hv; simp [mergeGoal, hv]
  · intro v hv; simp [mergeGoal, hv]

/-- Task stored in the C10 witness store under key 1. -/
def c10Task : Task :=
  { id := 1, userId := 1, title := "t", description := none
    estimatedDuration := none, actualDuration := none, status := "todo"
    source := none, externalId := none, goalId := none, priority := "medium"
    completed := false, createdAt := 0, dueDate := none }

def c10Store : MemStorage := { tasks := [(1, c10Task)], taskIdCounter := 2 }

/-- Patch rewriting the protected-looking fields `id` and `userId`. -/
def c10Patch : TaskPatch := { id := some 7, userId := some 9 }

def c10Goal : Goal :=
  { id := 3, userId := 1, title := "g", description := none, category := "c"
    timeframe := "daily", progress := 0, deadline := none, priority := "medium"
    parentGoalId := none, completed := false, createdAt := 0 }

def c10GoalPatch : GoalPatch := { userId := some 9, progress := some 55 }

/-- Witness for C10 at a concrete store, task, goal and patches. -/
theorem c10_update_shallow_merge_witness :
    (mapGet c10Store.tasks 1 = some c10Task)
    ∧ (((memUpdateTask c10Store 1 c10Patch).1 = some (mergeTask c10Task c10Patch)
      ∧ mapGet (memUpdateTask c10Store 1 c10Patch).2.tasks 1
          = some (mergeTask c10Task c10Patch))
    ∧ mergeTask c10Task c10Patch =
        { id := c10Patch.id.getD c10Task.id, userId := c10Patch.userId.getD c10Task.userId
          title := c10Patch.title.getD c10Task.title
          description := c10Patch.description.getD c10Task.description
          estimatedDuration := c10Patch.estimatedDuration.getD c10Task.estimatedDuration
          actualDuration := c10Patch.actualDuration.getD c10Task.actualDuration
          status := c10Patch.status.getD c10Task.status
          source := c10Patch.source.getD c10Task.source
          externalId := c10Patch.externalId.getD c10Task.externalId
          goalId := c10Patch.goalId.getD c10Task.goalId
          priority := c10Patch.priority.getD c10Task.priority
          completed := c10Patch.completed.getD c10Task.completed
          createdAt := c10Patch.createdAt.getD c10Task.createdAt
          dueDate := c10Patch.dueDate.getD c10Task.dueDate }
    ∧ (∀ v, c10Patch.id = some v → (mergeTask c10Task c10Patch).id = v)
    ∧ (∀ v, c10Patch.userId = some v → (mergeTask c10Task c10Patch).userId = v)
    ∧ mergeGoal c10Goal c10GoalPatch =
        { id := c10GoalPatch.id.getD c10Goal.id
          userId := c10GoalPatch.userId.getD c10Goal.userId
          title := c10GoalPatch.title.getD c10Goal.title
          description := c10GoalPatch.description.getD c10Goal.description
          category := c10GoalPatch.category.getD c10Goal.category
          timeframe := c10GoalPatch.timeframe.getD c10Goal.timeframe
          progress := c10GoalPatch.progress.getD c10Goal.progress
          deadline := c10GoalPatch.deadline.getD c10Goal.deadline
          priority := c10GoalPatch.priority.getD c10Goal.priority
          parentGoalId := c10GoalPatch.parentGoalId.getD c10Goal.parentGoalId
          completed := c10GoalPatch.completed.getD c10Goal.completed
          createdAt := c10GoalPatch.createdAt.getD c10Goal.createdAt }
    ∧ (∀ v, c10GoalPatch.id = some v → (mergeGoal c10Goal c10GoalPatch).id = v)
    ∧ (∀ v, c10GoalPatch.userId = some v → (mergeGoal c10Goal c10GoalPatch).userId = v)) :=
  ⟨by decide,
    c10_update_shallow_merge c10Store 1 c10Patch c10Task c10Task c10Goal c10GoalPatch
      (by decide)⟩

/-! ## Claim C4 -/

/-- Claim C4: in both backends the TimeBlock range query returns exactly the
blocks of the user that are fully contained in `[startDate, endDate]`
(startTime ≥ startDate and endTime ≤ endDate); a block of the user that
straddles either boundary fails the containment conjunction and is
therefore excluded. -/
theorem c4_timeblock_range_full_containment
    (s : MemStorage) (uid sd ed : Nat) (b : TimeBlock)
    (c : MongoState) (muid : String) (msd med : Nat) (d : MTimeBlock) :
    (b ∈ memGetTimeBlocksByUser s uid sd ed ↔
      (b ∈ mapValues s.timeBlocks ∧ b.userId = uid ∧ sd ≤ b.startTime ∧ b.endTime ≤ ed))
    ∧ (d ∈ mongoGetTimeBlocksByUser c.timeBlocks muid msd med ↔
      (d ∈ c.timeBlocks ∧ d.userId = muid ∧ msd ≤ d.startTime ∧ d.endTime ≤ med)) := by
  constructor
  · simp [memGetTimeBlocksByUser, List.mem_filter, and_assoc]
  · simp [mongoGetTimeBlocksByUser, List.mem_filter, and_assoc]

/-! ## Claim C5 -/

/-- Claim C5: the DailyPlan lookup of either backend depends on its date
argument only through the argument's calendar day: two timestamps with equal
day quotients (same calendar day, any time-of-day) give the same result,
because MemStorage normalizes both sides to midnight before comparing and
MongoStorage queries the whole-day range derived from the truncation. -/
theorem c5_dailyplan_day_insensitive (s : MemStorage) (c : MongoState)
    (uid : Nat) (muid : String) (d1 d2 : Nat)
    (h : d1 / dayMs = d2 / dayMs) :
    memGetDailyPlan s uid d1 = memGetDailyPlan s uid d2
    ∧ mongoGetDailyPlan c.dailyPlans muid d1 = mongoGetDailyPlan c.dailyPlans muid d2 := by
  have ht : truncToDay d1 = truncToDay d2 := by
    unfold truncToDay
    rw [h]
  unfold memGetDailyPlan mongoGetDailyPlan
  rw [ht]
  exact ⟨rfl, rfl⟩

/-- DailyPlan stored in the C5 witness state: dated 08:00:00 of epoch day 0. -/
def c5Plan : DailyPlan :=
  { id := 1, userId := 4, date := 28800000, notes := none, taskIds := []
    timeBlockIds := [], createdAt := 0 }

def c5Store : MemStorage := { dailyPlans := [(1, c5Plan)], dailyPlanIdCounter := 2 }

/-- Witness for C5: 01:00:00 and 23:00:00 of the same epoch day resolve to
the same (existing) plan. -/
theorem c5_dailyplan_day_insensitive_witness :
    (3600000 / dayMs = 82800000 / dayMs)
    ∧ (memGetDailyPlan c5Store 4 3600000 = memGetDailyPlan c5Store 4 82800000
      ∧ mongoGetDailyPlan ({} : MongoState).dailyPlans "u4" 3600000
          = mongoGetDailyPlan ({} : MongoState).dailyPlans "u4" 82800000) :=
  ⟨by decide, c5_dailyplan_day_insensitive c5Store {} 4 "u4" 3600000 82800000 (by decide)⟩

/-! ## Claim C2 -/

/-- Integration owned by user B, addressed by the C2 counterexample. -/
def c2Integration : MIntegration :=
  { _id := "aaaaaaaaaaaaaaaaaaaaaaaa", userId := "bbbbbbbbbbbbbbbbbbbbbbbb"
    type' := "todoist", credentials := "secret", syncStatus := "inactive"
    lastSynced := none, createdAt := 0 }

def c2State : MongoState := { integrations := [c2Integration] }

/-- The acting user A of the C2 counterexample. -/
def c2UserA : String := "cccccccccccccccccccccccc"

/-- Claim C2 is false on the code: `PATCH /api/integrations/:id` compares
`req.body.userId` — chosen by the requester — with the acting user instead
of the stored record's owner.  User A patches user B's integration with a
body claiming `userId = A`: the route answers 200, not 403, and the stored
record is rewritten (its owner becomes A). -/
theorem c2_ownership_counterexample :
    (mongoPatchIntegrationRoute c2State c2UserA "aaaaaaaaaaaaaaaaaaaaaaaa"
        { userId := some c2UserA }).status = 200
    ∧ mongoFindIntegrationById
        (mongoPatchIntegrationRoute c2State c2UserA "aaaaaaaaaaaaaaaaaaaaaaaa"
          { userId := some c2UserA }).state.integrations "aaaaaaaaaaaaaaaaaaaaaaaa"
        = some { c2Integration with userId := c2UserA }
    ∧ c2Integration.userId ≠ c2UserA := by
  decide

/-- Claim C2 (amended): the task (and structurally identical goal/timeblock)
id-addressed routes satisfy the claim — another user's record draws 403 for
both PATCH and DELETE and the state is unchanged; the integrations PATCH
route instead compares the body's `userId` with the acting user, so it
returns 403 with unchanged state only when that body field differs from the
acting user (the record's true owner is never consulted, and the
integrations DELETE checks nothing at all). -/
theorem c2_ownership_amended (st : MongoState) (userA : String) (id : String)
    (task : MTask) (tbody : MTaskPatch) (ibody : MIntegrationPatch) (bu : String)
    (hid : isValidObjectId id = true)
    (htask : mongoGetTask st.tasks id = some task)
    (hown : task.userId ≠ userA)
    (hib : ibody.userId = some bu) (hbu : bu ≠ userA) :
    ((mongoPatchTaskRoute st userA id tbody).status = 403
      ∧ (mongoPatchTaskRoute st userA id tbody).state = st)
    ∧ ((mongoDeleteTaskRoute st userA id).status = 403
      ∧ (mongoDeleteTaskRoute st userA id).state = st)
    ∧ ((mongoPatchIntegrationRoute st userA id ibody).status = 403
      ∧ (mongoPatchIntegrationRoute st userA id ibody).state = st) := by
  refine ⟨?_, ?_, ?_⟩
  · simp [mongoPatchTaskRoute, hid, htask, checkOwnership, hown]
  · simp [mongoDeleteTaskRoute, hid, htask, checkOwnership, hown]
  · simp [mongoPatchIntegrationRoute, hid, hib, checkOwnership, hbu]

/-- Task owned by user B, addressed by the C2 witness. -/
def c2Task : MTask :=
  { _id := "dddddddddddddddddddddddd", userId := "bbbbbbbbbbbbbbbbbbbbbbbb"
    title := "bs task", description := none, estimatedDuration := none
    actualDuration := none, status := "todo", source := some "manual"
    externalId := none, goalId := none, priority := "medium", completed := false
    createdAt := 0, dueDate := none }

def c2TaskState : MongoState :=
  { tasks := [c2Task], integrations := [c2Integration] }

/-- Witness for C2 at user A addressing user B's task, and an integration
body claiming a userId different from A. -/
theorem c2_ownership_amended_witness :
    (isValidObjectId "dddddddddddddddddddddddd" = true
      ∧ mongoGetTask c2TaskState.tasks "dddddddddddddddddddddddd" = some c2Task
      ∧ c2Task.userId ≠ c2UserA
      ∧ ({ userId := some "bbbbbbbbbbbbbbbbbbbbbbbb" } : MIntegrationPatch).userId
          = some "bbbbbbbbbbbbbbbbbbbbbbbb"
      ∧ "bbbbbbbbbbbbbbbbbbbbbbbb" ≠ c2UserA)
    ∧ (((mongoPatchTaskRoute c2TaskState c2UserA "dddddddddddddddddddddddd" {}).status = 403
      ∧ (mongoPatchTaskRoute c2TaskState c2UserA "dddddddddddddddddddddddd" {}).state
          = c2TaskState)
    ∧ ((mongoDeleteTaskRoute c2TaskState c2UserA "dddddddddddddddddddddddd").status = 403
      ∧ (mongoDeleteTaskRoute c2TaskState c2UserA "dddddddddddddddddddddddd").state
          = c2TaskState)
    ∧ ((mongoPatchIntegrationRoute c2TaskState c2UserA "dddddddddddddddddddddddd"
          { userId := some "bbbbbbbbbbbbbbbbbbbbbbbb" }).status = 403
      ∧ (mongoPatchIntegrationRoute c2TaskState c2UserA "dddddddddddddddddddddddd"
          { userId := some "bbbbbbbbbbbbbbbbbbbbbbbb" }).state = c2TaskState)) :=
  ⟨⟨by decide, by decide, by decide, rfl, by decide⟩,
    c2_ownership_amended c2TaskState c2UserA "dddddddddddddddddddddddd" c2Task {}
      { userId := some "bbbbbbbbbbbbbbbbbbbbbbbb" } "bbbbbbbbbbbbbbbbbbbbbbbb"
      (by decide) (by decide) (by decide) rfl (by decide)⟩

/-! ## Claim C9 -/

/-- Claim C9: `DELETE /api/integrations/:id` in the Mongo route set performs
no ownership comparison — for any authenticated user and any existing
integration whose id is a valid ObjectId, even one owned by a different
user, the route deletes the record and answers 204, after which the id no
longer resolves. -/
theorem c9_delete_integration_no_ownership (st : MongoState) (userA : String)
    (rec : MIntegration)
    (hid : isValidObjectId rec._id = true)
    (hnd : (st.integrations.map (·._id)).Nodup)
    (hfind : mongoFindIntegrationById st.integrations rec._id = some rec)
    (hown : rec.userId ≠ userA) :
    (mongoDeleteIntegrationRoute st userA rec._id).status = 204
    ∧ mongoFindIntegrationById
        (mongoDeleteIntegrationRoute st userA rec._id).state.integrations rec._id
      = none := by
  have hsome : (st.integrations.find? (fun i => i._id == rec._id)).isSome = true := by
    rw [show st.integrations.find? (fun i => i._id == rec._id)
          = mongoFindIntegrationById st.integrations rec._id from rfl, hfind]
    rfl
  have hfst : (findByIdAndDelete (·._id) rec._id st.integrations).1.isSome = true := by
    rw [findByIdAndDelete_fst_isSome]
    exact hsome
  have hnone := find?_findByIdAndDelete_self (·._id) rec._id st.integrations hnd
  simp only [mongoDeleteIntegrationRoute, hid, Bool.not_true, if_false,
    mongoDeleteIntegration, hfst, Bool.not_true]
  exact ⟨rfl, hnone⟩

/-- Witness for C9: user A deletes the integration of user B. -/
theorem c9_delete_integration_no_ownership_witness :
    (isValidObjectId c2Integration._id = true
      ∧ (c2State.integrations.map (·._id)).Nodup
      ∧ mongoFindIntegrationById c2State.integrations c2Integration._id
          = some c2Integration
      ∧ c2Integration.userId ≠ c2UserA)
    ∧ ((mongoDeleteIntegrationRoute c2State c2UserA c2Integration._id).status = 204
      ∧ mongoFindIntegrationById
          (mongoDeleteIntegrationRoute c2State c2UserA c2Integration._id).state.integrations
          c2Integration._id = none) :=
  ⟨⟨by decide, by decide, by decide, by decide⟩,
    c9_delete_integration_no_ownership c2State c2UserA c2Integration
      (by decide) (by decide) (by decide) (by decide)⟩

/-! ## Claim C6 -/

/-- Existing user of the C6 counterexample store. -/
def c6Alice : User :=
  { id := 1, username := "alice", password := "h", email := "a@x"
    googleId := none, fullName := none, profilePicture := none, createdAt := 0 }

def c6Store : MemStorage := { users := [(1, c6Alice)], userIdCounter := 2 }

/-- Registration body reusing alice's email under a fresh username. -/
def c6Body : InsertUser := { username := "bob", password := "pw", email := "a@x" }

/-- Claim C6 is false on the code: the in-memory register route checks only
the username for duplication, so a request with a fresh username but an
email equal to an existing user's is accepted — a second user with the
duplicate email is created. -/
theorem c6_register_duplicate_counterexample :
    (memRegisterRoute (fun pw => pw) c6Store c6Body 5).1
      = RegisterResult.created
          { id := 2, username := "bob", password := "pw", email := "a@x"
            googleId := none, fullName := none, profilePicture := none, createdAt := 5 }
    ∧ ((mapValues (memRegisterRoute (fun pw => pw) c6Store c6Body 5).2.users).countP
        (fun u => u.email == "a@x")) = 2 := by
  decide

/-- Claim C6 (amended): both variants reject a duplicate username without
creating a user; the Mongo variant additionally rejects a duplicate email;
but the in-memory variant performs no email check (see counterexample), so
the claim holds in full only for the Mongo variant. -/
theorem c6_register_duplicate_amended
    (hash hash2 hash3 : String → String) (s : MemStorage) (c c2 : List MUser)
    (body body2 body3 : InsertUser) (u : User) (mu mu2 : MUser)
    (now now2 now3 : Nat) (oid oid2 : String)
    (hmem : memGetUserByUsername s body.username = some u)
    (hm1 : mongoGetUserByUsername c body2.username = some mu)
    (hm2 : mongoGetUserByUsername c2 body3.username = none)
    (hm3 : mongoGetUserByEmail c2 body3.email = some mu2) :
    memRegisterRoute hash s body now
        = (RegisterResult.badRequest "Username already exists", s)
    ∧ mongoRegisterRoute hash2 c body2 oid now2
        = (RegisterResult.badRequest "Username already exists", c)
    ∧ mongoRegisterRoute hash3 c2 body3 oid2 now3
        = (RegisterResult.badRequest "Email already exists", c2) := by
  refine ⟨?_, ?_, ?_⟩
  · simp [memRegisterRoute, hmem]
  · simp [mongoRegisterRoute, hm1]
  · simp [mongoRegisterRoute, hm2, hm3]

/-- Mongo users of the C6 witness: carol exists; a duplicate-username body
and a duplicate-email body are both rejected. -/
def c6Carol : MUser :=
  { _id := "eeeeeeeeeeeeeeeeeeeeeeee", username := "carol", password := "h"
    email := "c@x", googleId := none, fullName := none, profilePicture := none
    createdAt := 0 }

/-- Witness for C6 at concrete stores and bodies. -/
theorem c6_register_duplicate_amended_witness :
    (memGetUserByUsername c6Store "alice" = some c6Alice
      ∧ mongoGetUserByUsername [c6Carol] "carol" = some c6Carol
      ∧ mongoGetUserByUsername [c6Carol] "dan" = none
      ∧ mongoGetUserByEmail [c6Carol] "c@x" = some c6Carol)
    ∧ (memRegisterRoute (fun pw => pw) c6Store { username := "alice", password := "p", email := "z@x" } 9
        = (RegisterResult.badRequest "Username already exists", c6Store)
      ∧ mongoRegisterRoute (fun pw => pw) [c6Carol] { username := "carol", password := "p", email := "z@x" } "ffffffffffffffffffffffff" 9
        = (RegisterResult.badRequest "Username already exists", [c6Carol])
      ∧ mongoRegisterRoute (fun pw => pw) [c6Carol] { username := "dan", password := "p", email := "c@x" } "ffffffffffffffffffffffff" 9
        = (RegisterResult.badRequest "Email already exists", [c6Carol])) :=
  ⟨⟨by decide, by decide, by decide, by decide⟩,
    c6_register_duplicate_amended (fun pw => pw) (fun pw => pw) (fun pw => pw)
      c6Store [c6Carol] [c6Carol]
      { username := "alice", password := "p", email := "z@x" }
      { username := "carol", password := "p", email := "z@x" }
      { username := "dan", password := "p", email := "c@x" }
      c6Alice c6Carol c6Carol 9 9 9 "ffffffffffffffffffffffff" "ffffffffffffffffffffffff"
      (by decide) (by decide) (by decide) (by decide)⟩

/-! ## Claim C8 -/

theorem taskEntryCorr_snd {f : Nat → String} {e : Nat × Task} {d : MTask}
    (h : taskEntryCorr f e d = true) : taskCorr f e.2 d = true := by
  rw [taskEntryCorr, Bool.and_eq_true] at h
  exact h.2

theorem tbEntryCorr_snd {f : Nat → String} {e : Nat × TimeBlock} {d : MTimeBlock}
    (h : tbEntryCorr f e d = true) : tbCorr f e.2 d = true := by
  rw [tbEntryCorr, Bool.and_eq_true] at h
  exact h.2

theorem dpEntryCorr_snd {f : Nat → String} {e : Nat × DailyPlan} {d : MDailyPlan}
    (h : dpEntryCorr f e d = true) : dpCorr f e.2 d = true := by
  rw [dpEntryCorr, Bool.and_eq_true] at h
  exact h.2

theorem taskEntryCorr_key {f : Nat → String} {e : Nat × Task} {d : MTask}
    (h : taskEntryCorr f e d = true) : d._id = f e.1 := by
  rw [taskEntryCorr, Bool.and_eq_true] at h
  exact (beq_iff_eq.mp h.1).symm

theorem taskCorr_userId {f : Nat → String} {t : Task} {d : MTask}
    (h : taskCorr f t d = true) : d.userId = f t.userId := by
  simp only [taskCorr, Bool.and_eq_true, beq_iff_eq, and_assoc] at h
  exact h.2.1

theorem tbCorr_fields {f : Nat → String} {b : TimeBlock} {d : MTimeBlock}
    (h : tbCorr f b d = true) :
    d.userId = f b.userId ∧ d.startTime = b.startTime ∧ d.endTime = b.endTime := by
  simp only [tbCorr, Bool.and_eq_true, beq_iff_eq, and_assoc] at h
  exact ⟨h.2.1, h.2.2.2.1, h.2.2.2.2.1⟩

theorem dpCorr_fields {f : Nat → String} {p : DailyPlan} {d : MDailyPlan}
    (h : dpCorr f p d = true) : d.userId = f p.userId ∧ d.date = p.date := by
  simp only [dpCorr, Bool.and_eq_true, beq_iff_eq, and_assoc] at h
  exact ⟨h.2.1, h.2.2.1⟩

/-- Translating both sides of an equality test through a function that is
injective at the tested pair preserves the Boolean result. -/
theorem beq_congr {α β : Type} [BEq α] [LawfulBEq α] [BEq β] [LawfulBEq β]
    (f : α → β) (x y : α) (h : f x = f y → x = y) : (x == y) = (f x == f y) := by
  by_cases hxy : x = y
  · subst hxy
    simp
  · rw [beq_eq_false_iff_ne.mpr hxy, beq_eq_false_iff_ne.mpr (fun hc => hxy (h hc))]

/-- The MemStorage midnight-equality test and the MongoStorage day-range
test are the same Boolean predicate. -/
theorem truncToDay_beq_eq (x d : Nat) :
    (truncToDay x == truncToDay d)
      = (decide (truncToDay d ≤ x) && decide (x ≤ truncToDay d + (dayMs - 1))) := by
  by_cases h : truncToDay x = truncToDay d
  · have hr := (truncToDay_eq_iff x d).mp h
    simp [h, hr.1, hr.2]
  · have hr : ¬ (truncToDay d ≤ x ∧ x ≤ truncToDay d + (dayMs - 1)) :=
      fun hc => h ((truncToDay_eq_iff x d).mpr hc)
    rw [beq_eq_false_iff_ne.mpr h]
    by_cases h1 : truncToDay d ≤ x
    · have h2 : ¬ x ≤ truncToDay d + (dayMs - 1) := fun hc => hr ⟨h1, hc⟩
      simp [h2]
    · simp [h1]

/-- Claim C8 (amended): under an id translation `f` relating a MemStorage
state to a MongoStorage state entry by entry, the two backends agree
observably on the query operations — get-by-id (same not-found outcome and
corresponding record), the ownership-filtered task list, the TimeBlock
range query, and the DailyPlan day lookup.  Full observational equivalence
nevertheless fails: the create defaults differ (see the counterexample), so
the backends are query-equivalent but not create-equivalent. -/
theorem c8_backend_query_equivalence_amended
    (f : Nat → String) (s : MemStorage) (c : MongoState)
    (qid uid tuid duid sd ed date : Nat)
    (hT : listCorr (taskEntryCorr f) s.tasks c.tasks = true)
    (hB : listCorr (tbEntryCorr f) s.timeBlocks c.timeBlocks = true)
    (hD : listCorr (dpEntryCorr f) s.dailyPlans c.dailyPlans = true)
    (hinj1 : ∀ e ∈ s.tasks, f e.1 = f qid → e.1 = qid)
    (hinj2 : ∀ t ∈ mapValues s.tasks, f t.userId = f uid → t.userId = uid)
    (hinj3 : ∀ b ∈ mapValues s.timeBlocks, f b.userId = f tuid → b.userId = tuid)
    (hinj4 : ∀ p ∈ mapValues s.dailyPlans, f p.userId = f duid → p.userId = duid) :
    optionCorr (taskCorr f) (memGetTask s qid) (mongoGetTask c.tasks (f qid)) = true
    ∧ listCorr (taskCorr f) (memGetTasksByUser s uid)
        (mongoGetTasksByUser c.tasks (f uid)) = true
    ∧ listCorr (tbCorr f) (memGetTimeBlocksByUser s tuid sd ed)
        (mongoGetTimeBlocksByUser c.timeBlocks (f tuid) sd ed) = true
    ∧ optionCorr (dpCorr f) (memGetDailyPlan s duid date)
        (mongoGetDailyPlan c.dailyPlans (f duid) date) = true := by
  refine ⟨?_, ?_, ?_, ?_⟩
  · have h1 := listCorr_find? (taskEntryCorr f)
      (fun e => e.1 == qid) (fun d => d._id == f qid) s.tasks c.tasks hT
      (fun e he d hcorr => by
        show (e.1 == qid) = (d._id == f qid)
        rw [taskEntryCorr_key hcorr]
        exact beq_congr f e.1 qid (hinj1 e he))
    have h2 := optionCorr_map_left (taskEntryCorr f) (taskCorr f) (·.2)
      (fun e d h => taskEntryCorr_snd h) _ _ h1
    simpa [memGetTask, mapGet, mongoGetTask] using h2
  · have hv := listCorr_map_left (taskEntryCorr f) (taskCorr f) (·.2)
      (fun e d h => taskEntryCorr_snd h) _ _ hT
    have h2 := listCorr_filter (taskCorr f)
      (fun t => t.userId == uid) (fun d => d.userId == f uid)
      (mapValues s.tasks) c.tasks hv
      (fun t ht d hcorr => by
        show (t.userId == uid) = (d.userId == f uid)
        rw [taskCorr_userId hcorr]
        exact beq_congr f t.userId uid (hinj2 t ht))
    simpa [memGetTasksByUser, mongoGetTasksByUser] using h2
  · have hv := listCorr_map_left (tbEntryCorr f) (tbCorr f) (·.2)
      (fun e d h => tbEntryCorr_snd h) _ _ hB
    have h2 := listCorr_filter (tbCorr f)
      (fun b => b.userId == tuid && decide (sd ≤ b.startTime) && decide (b.endTime ≤ ed))
      (fun d => d.userId == f tuid && decide (sd ≤ d.startTime) && decide (d.endTime ≤ ed))
      (mapValues s.timeBlocks) c.timeBlocks hv
      (fun b hb d hcorr => by
        show (b.userId == tuid && decide (sd ≤ b.startTime) && decide (b.endTime ≤ ed))
          = (d.userId == f tuid && decide (sd ≤ d.startTime) && decide (d.endTime ≤ ed))
        obtain ⟨hu, hst, het⟩ := tbCorr_fields hcorr
        rw [hu, hst, het, ← beq_congr f b.userId tuid (hinj3 b hb)])
    simpa [memGetTimeBlocksByUser, mongoGetTimeBlocksByUser] using h2
  · have hv := listCorr_map_left (dpEntryCorr f) (dpCorr f) (·.2)
      (fun e d h => dpEntryCorr_snd h) _ _ hD
    have h2 := listCorr_find? (dpCorr f)
      (fun p => p.userId == duid && truncToDay p.date == truncToDay date)
      (fun d => d.userId == f duid && decide (truncToDay date ≤ d.date)
        && decide (d.date ≤ truncToDay date + (dayMs - 1)))
      (mapValues s.dailyPlans) c.dailyPlans hv
      (fun p hp d hcorr => by
        show (p.userId == duid && truncToDay p.date == truncToDay date)
          = (d.userId == f duid && decide (truncToDay date ≤ d.date)
              && decide (d.date ≤ truncToDay date + (dayMs - 1)))
        obtain ⟨hu, hd⟩ := dpCorr_fields hcorr
        rw [hu, hd, ← beq_congr f p.userId duid (hinj4 p hp),
          Bool.and_assoc, ← truncToDay_beq_eq p.date date])
    simpa [memGetDailyPlan, mongoGetDailyPlan] using h2

/-- Claim C8 counterexample: the same insert data put through both create
paths yields records that do NOT correspond — MemStorage's `createTask`
leaves `source` unset while MongoStorage's schema defaults it to "manual";
every other field corresponds (last conjunct), so create — and with it full
observational equivalence — differs exactly there. -/
theorem c8_backend_equivalence_counterexample :
    (memCreateTask {} { userId := 1, title := "t" } 0).1.source = none
    ∧ (mongoCreateTask { userId := "1", title := "t" } "1" 0).source = some "manual"
    ∧ taskCorr (fun n => Nat.repr n)
        (memCreateTask {} { userId := 1, title := "t" } 0).1
        (mongoCreateTask { userId := "1", title := "t" } "1" 0) = false
    ∧ taskCorr (fun n => Nat.repr n)
        (memCreateTask {} { userId := 1, title := "t" } 0).1
        { mongoCreateTask { userId := "1", title := "t" } "1" 0 with source := none }
      = true := by
  decide

def c8MemTask : Task :=
  { id := 1, userId := 4, title := "a", description := none
    estimatedDuration := none, actualDuration := none, status := "todo"
    source := none, externalId := none, goalId := none, priority := "medium"
    completed := false, createdAt := 0, dueDate := none }

def c8MongoTask : MTask :=
  { _id := "1", userId := "4", title := "a", description := none
    estimatedDuration := none, actualDuration := none, status := "todo"
    source := none, externalId := none, goalId := none, priority := "medium"
    completed := false, createdAt := 0, dueDate := none }

def c8MemTB : TimeBlock :=
  { id := 2, userId := 4, taskId := none, startTime := 10, endTime := 20
    calendarEventId := none, buffer := 0, createdAt := 0 }

def c8MongoTB : MTimeBlock :=
  { _id := "2", userId := "4", taskId := none, startTime := 10, endTime := 20
    calendarEventId := none, buffer := 0, createdAt := 0 }

def c8MemDP : DailyPlan :=
  { id := 3, userId := 4, date := 28800000, notes := none, taskIds := []
    timeBlockIds := [], createdAt := 0 }

def c8MongoDP : MDailyPlan :=
  { _id := "3", userId := "4", date := 28800000, notes := none, taskIds := []
    timeBlockIds := [], createdAt := 0 }

def c8Mem : MemStorage :=
  { tasks := [(1, c8MemTask)], timeBlocks := [(2, c8MemTB)]
    dailyPlans := [(3, c8MemDP)], taskIdCounter := 2, timeBlockIdCounter := 3
    dailyPlanIdCounter := 4 }

def c8Mongo : MongoState :=
  { tasks := [c8MongoTask], timeBlocks := [c8MongoTB], dailyPlans := [c8MongoDP] }

/-- Witness for C8 at concrete corresponding one-record stores with
`f = Nat.repr`. -/
theorem c8_backend_query_equivalence_amended_witness :
    (listCorr (taskEntryCorr (fun n => Nat.repr n)) c8Mem.tasks c8Mongo.tasks = true
      ∧ listCorr (tbEntryCorr (fun n => Nat.repr n)) c8Mem.timeBlocks c8Mongo.timeBlocks = true
      ∧ listCorr (dpEntryCorr (fun n => Nat.repr n)) c8Mem.dailyPlans c8Mongo.dailyPlans = true
      ∧ (∀ e ∈ c8Mem.tasks, Nat.repr e.1 = Nat.repr 1 → e.1 = 1)
      ∧ (∀ t ∈ mapValues c8Mem.tasks, Nat.repr t.userId = Nat.repr 4 → t.userId = 4)
      ∧ (∀ b ∈ mapValues c8Mem.timeBlocks, Nat.repr b.userId = Nat.repr 4 → b.userId = 4)
      ∧ (∀ p ∈ mapValues c8Mem.dailyPlans, Nat.repr p.userId = Nat.repr 4 → p.userId = 4))
    ∧ (optionCorr (taskCorr (fun n => Nat.repr n)) (memGetTask c8Mem 1)
          (mongoGetTask c8Mongo.tasks (Nat.repr 1)) = true
      ∧ listCorr (taskCorr (fun n => Nat.repr n)) (memGetTasksByUser c8Mem 4)
          (mongoGetTasksByUser c8Mongo.tasks (Nat.repr 4)) = true
      ∧ listCorr (tbCorr (fun n => Nat.repr n)) (memGetTimeBlocksByUser c8Mem 4 0 100)
          (mongoGetTimeBlocksByUser c8Mongo.timeBlocks (Nat.repr 4) 0 100) = true
      ∧ optionCorr (dpCorr (fun n => Nat.repr n)) (memGetDailyPlan c8Mem 4 3600000)
          (mongoGetDailyPlan c8Mongo.dailyPlans (Nat.repr 4) 3600000) = true) :=
  ⟨⟨by decide, by decide, by decide, by decide, by decide, by decide, by decide⟩,
    c8_backend_query_equivalence_amended (fun n => Nat.repr n) c8Mem c8Mongo
      1 4 4 4 0 100 3600000
      (by decide) (by decide) (by decide) (by decide) (by decide) (by decide) (by decide)⟩

end Taskflow
